import Mathlib

/-!
Verification development for the carbon-sequestration calculator core
(`calculator/formulas.py`, `calculator/models.py`, `calculator/constants.py`).

Shallow embedding conventions:
* Python floats are modelled as exact rationals `ℚ`; the only places where a
  Python float can become non-finite (the `float("inf")` sentinel for a zero
  weighted rate and the `inf` utilization sentinel) are modelled by the
  extended domain `Flt` below, with IEEE semantics for the few operations the
  source applies to such values.
* `math.exp` (used by the maturity curves) is modelled by `Real.exp`, so the
  two maturity functions are real-valued.
* Python `dict` results are modelled as partial maps `ℤ → Option ℚ`.
* Pydantic `Field` range constraints of `CalculatorInput` are collected in the
  predicate `Valid`; the pydantic model leaves `existing_forest_status`
  unconstrained, so `Valid` does not constrain it either.
-/

namespace SeqCalc

/-- Extended domain for Python float results that may be non-finite:
`num q` is a finite value, `inf`/`ninf` the two infinities, `nan` the
invalid-operation result (e.g. `inf * 0.0`). -/
inductive Flt where
  | num : ℚ → Flt
  | inf : Flt
  | ninf : Flt
  | nan : Flt
deriving DecidableEq, Repr

/-- Python float multiplication `x * q` with finite `q`. -/
def Flt.mulQ : Flt → ℚ → Flt
  | Flt.num a, q => Flt.num (a * q)
  | Flt.inf, q => if 0 < q then Flt.inf else if q < 0 then Flt.ninf else Flt.nan
  | Flt.ninf, q => if 0 < q then Flt.ninf else if q < 0 then Flt.inf else Flt.nan
  | Flt.nan, _ => Flt.nan

/-- Python float division `x / q`; the source only divides by positive
finite values (guarded by `area_available > 0`). -/
def Flt.divQ : Flt → ℚ → Flt
  | Flt.num a, q => Flt.num (a / q)
  | Flt.inf, q => if 0 < q then Flt.inf else if q < 0 then Flt.ninf else Flt.nan
  | Flt.ninf, q => if 0 < q then Flt.ninf else if q < 0 then Flt.inf else Flt.nan
  | Flt.nan, _ => Flt.nan

/-- Python `<=` on floats (`nan` compares false). -/
def Flt.le : Flt → Flt → Bool
  | Flt.nan, _ => false
  | _, Flt.nan => false
  | Flt.num a, Flt.num b => decide (a ≤ b)
  | Flt.num _, Flt.inf => true
  | Flt.num _, Flt.ninf => false
  | Flt.inf, Flt.inf => true
  | Flt.inf, _ => false
  | Flt.ninf, _ => true

/-- Python `<` on floats (`nan` compares false). -/
def Flt.lt : Flt → Flt → Bool
  | Flt.nan, _ => false
  | _, Flt.nan => false
  | Flt.num a, Flt.num b => decide (a < b)
  | Flt.num _, Flt.inf => true
  | Flt.num _, Flt.ninf => false
  | Flt.inf, _ => false
  | Flt.ninf, Flt.ninf => false
  | Flt.ninf, _ => true

/-- Python `min x y`: returns `y` exactly when `y < x`, else `x`. -/
def Flt.pymin (x y : Flt) : Flt := if Flt.lt y x then y else x

/-- Python `0 < x` as a boolean. -/
def Flt.posB : Flt → Bool
  | Flt.num a => decide (0 < a)
  | Flt.inf => true
  | Flt.ninf => false
  | Flt.nan => false

/-- `q - x` for finite `q` (Python float subtraction). -/
def Flt.subFrom (q : ℚ) : Flt → Flt
  | Flt.num a => Flt.num (q - a)
  | Flt.inf => Flt.ninf
  | Flt.ninf => Flt.inf
  | Flt.nan => Flt.nan

/-- Whether an extended float value is finite. -/
def Flt.isFinite : Flt → Bool
  | Flt.num _ => true
  | _ => false

/-- `CalculatorInput` from `calculator/models.py`, with the pydantic field
defaults. -/
structure CalculatorInput where
  emissions_initial : ℚ := 1200
  emissions_peak : ℚ := 1244
  target_2050 : ℚ := 540
  sequestration_percent : ℚ := 60
  initial_year : ℤ := 2023
  peak_year : ℤ := 2030
  target_year : ℤ := 2050
  new_planting_start_year : ℤ := 2023
  forest_area_available : ℚ := 120343230
  coastal_area_available : ℚ := 5321321
  existing_forest_status : String := "mixed"
  new_planting_forest_percent : ℚ := 80
  forest_rate : ℚ := 6.9
  coastal_rate : ℚ := 6.6
  include_below_ground : Bool := false
  root_to_shoot_ratio : ℚ := 0.37
  risk_factor : ℚ := 0
  degradation_rate : ℚ := 2
deriving DecidableEq, Repr

/-- The pydantic `Field(ge=..., le=...)` range constraints of
`CalculatorInput` (`calculator/models.py`).  The status string carries no
constraint in the model, so none is imposed here. -/
def Valid (p : CalculatorInput) : Prop :=
  0 ≤ p.emissions_initial ∧ p.emissions_initial ≤ 5000 ∧
  0 ≤ p.emissions_peak ∧ p.emissions_peak ≤ 5000 ∧
  0 ≤ p.target_2050 ∧ p.target_2050 ≤ 5000 ∧
  0 ≤ p.sequestration_percent ∧ p.sequestration_percent ≤ 100 ∧
  2000 ≤ p.initial_year ∧ p.initial_year ≤ 2100 ∧
  2000 ≤ p.peak_year ∧ p.peak_year ≤ 2100 ∧
  2025 ≤ p.target_year ∧ p.target_year ≤ 2100 ∧
  2000 ≤ p.new_planting_start_year ∧ p.new_planting_start_year ≤ 2100 ∧
  0 ≤ p.forest_area_available ∧
  0 ≤ p.coastal_area_available ∧
  0 ≤ p.new_planting_forest_percent ∧ p.new_planting_forest_percent ≤ 100 ∧
  1 ≤ p.forest_rate ∧ p.forest_rate ≤ 50 ∧
  1 ≤ p.coastal_rate ∧ p.coastal_rate ≤ 50 ∧
  0.1 ≤ p.root_to_shoot_ratio ∧ p.root_to_shoot_ratio ≤ 1 ∧
  0 ≤ p.risk_factor ∧ p.risk_factor ≤ 50 ∧
  0 ≤ p.degradation_rate ∧ p.degradation_rate ≤ 10

instance (p : CalculatorInput) : Decidable (Valid p) := by
  unfold Valid; infer_instance

/-- The activity factor looked up from `EXISTING_FOREST_STATUS_OPTIONS` in
`calculator/constants.py` with the double `.get` fallback of `formulas.py`
lines 248-250: mature 0, mixed 0.5, active 1, any other string 0. -/
def existing_status_factor (s : String) : ℚ :=
  if s = "mature" then 0
  else if s = "mixed" then 0.5
  else if s = "active" then 1
  else 0

/-- Phase-1 value of `interpolate_emissions` (initial → peak): the year `y`
entry written by the first loop. -/
def phase1_value (iy : ℤ) (iv : ℚ) (py : ℤ) (pv : ℚ) (y : ℤ) : ℚ :=
  iv + (if iy < py then ((y - iy : ℤ) : ℚ) / ((py - iy : ℤ) : ℚ) else 1) * (pv - iv)

/-- Phase-2 value of `interpolate_emissions` (peak → target): the year `y`
entry written by the second loop. -/
def phase2_value (py : ℤ) (pv : ℚ) (ty : ℤ) (tv : ℚ) (y : ℤ) : ℚ :=
  pv - (if py < ty then ((y - py : ℤ) : ℚ) / ((ty - py : ℤ) : ℚ) else 1) * (pv - tv)

/-- `interpolate_emissions` (`formulas.py` lines 41-71): the returned dict,
as a partial map on years.  The first loop writes years
`initial_year .. peak_year`, the second loop years
`peak_year+1 .. target_year`; the key sets are disjoint. -/
def interpolate_emissions (iy : ℤ) (iv : ℚ) (py : ℤ) (pv : ℚ)
    (ty : ℤ) (tv : ℚ) : ℤ → Option ℚ := fun y =>
  if iy ≤ y ∧ y ≤ py then some (phase1_value iy iv py pv y)
  else if py + 1 ≤ y ∧ y ≤ ty then some (phase2_value py pv ty tv y)
  else none

/-- `years` of `calculate_sequestration` (`formulas.py` lines 202-205):
`target_year - initial_year`, clamped to a minimum of 1. -/
def years_clamped (p : CalculatorInput) : ℤ :=
  if p.target_year - p.initial_year ≤ 0 then 1 else p.target_year - p.initial_year

/-- `cumulative_emissions` (`formulas.py` line 215): the sum of the values of
the dict produced by `interpolate_emissions`; its keys are the disjoint
ranges `initial_year .. peak_year` and `peak_year+1 .. target_year`. -/
def cumulative_emissions (p : CalculatorInput) : ℚ :=
  (Finset.Icc p.initial_year p.peak_year).sum
    (phase1_value p.initial_year p.emissions_initial p.peak_year p.emissions_peak) +
  (Finset.Icc (p.peak_year + 1) p.target_year).sum
    (phase2_value p.peak_year p.emissions_peak p.target_year p.target_2050)

/-- `effective_forest_rate` (`formulas.py` lines 224-234): base rate, times
the below-ground multiplier if enabled, times the risk discount. -/
def effective_forest_rate (p : CalculatorInput) : ℚ :=
  (if p.include_below_ground then p.forest_rate * (1 + p.root_to_shoot_ratio)
   else p.forest_rate) * (1 - p.risk_factor / 100)

/-- `effective_coastal_rate` (`formulas.py` lines 225-234). -/
def effective_coastal_rate (p : CalculatorInput) : ℚ :=
  (if p.include_below_ground then p.coastal_rate * (1 + p.root_to_shoot_ratio)
   else p.coastal_rate) * (1 - p.risk_factor / 100)

/-- `weighted_rate` (`formulas.py` lines 236-240). -/
def weighted_rate (p : CalculatorInput) : ℚ :=
  (p.new_planting_forest_percent / 100) * effective_forest_rate p +
  (1 - p.new_planting_forest_percent / 100) * effective_coastal_rate p

/-- Combined existing-sink base capacity
`forest_existing_base + coastal_existing_base` (`formulas.py` lines 244-245);
note the source computes it from the risk-discounted effective rates. -/
def existing_base (p : CalculatorInput) : ℚ :=
  p.forest_area_available * effective_forest_rate p +
  p.coastal_area_available * effective_coastal_rate p

/-- State of the existing-forest loop (`formulas.py` lines 252-267) after `n`
iterations: `(total_existing_absorption_tonnes, total_degradation_loss_tonnes,
remaining_capacity)`. -/
def existingStep (base factor dr : ℚ) : ℕ → ℚ × ℚ × ℚ
  | 0 => (0, 0, 1)
  | n + 1 =>
    let s := existingStep base factor dr n
    let sink := base * s.2.2
    (s.1 + sink * factor, s.2.1 + sink * dr, s.2.2 * (1 - dr))

/-- `total_existing_absorption_tonnes` after the loop (`formulas.py`
lines 252-267). -/
def total_existing_absorption (p : CalculatorInput) : ℚ :=
  (existingStep (existing_base p) (existing_status_factor p.existing_forest_status)
    (p.degradation_rate / 100) (years_clamped p).toNat).1

/-- `total_degradation_loss_tonnes` after the loop (`formulas.py`
lines 252-267). -/
def total_degradation_loss (p : CalculatorInput) : ℚ :=
  (existingStep (existing_base p) (existing_status_factor p.existing_forest_status)
    (p.degradation_rate / 100) (years_clamped p).toNat).2.1

/-- `sequestration_target` (`formulas.py` line 221), in MtCO2e. -/
def sequestration_target_mt (p : CalculatorInput) : ℚ :=
  cumulative_emissions p * (p.sequestration_percent / 100)

/-- `sequestration_target_tonnes` (`formulas.py` line 271). -/
def sequestration_target_tonnes (p : CalculatorInput) : ℚ :=
  sequestration_target_mt p * 1000000

/-- `annual_sequestration_needed` (`formulas.py` lines 275-281). -/
def annual_sequestration_needed (p : CalculatorInput) : ℚ :=
  (max 0 (sequestration_target_tonnes p - total_existing_absorption p) +
    total_degradation_loss p) / (years_clamped p : ℚ)

/-- `FeasibilityResult` (`calculator/models.py`). -/
structure FeasibilityResult where
  area_needed : Flt
  area_available : ℚ
  is_feasible : Bool
  utilization_percent : Flt
  deficit_or_surplus : Flt
deriving DecidableEq, Repr

/-- `_calculate_feasibility` (`formulas.py` lines 324-342). -/
def calculate_feasibility (area_needed : Flt) (area_available : ℚ) :
    FeasibilityResult :=
  let is_feasible := area_needed.le (Flt.num area_available)
  let utilization :=
    if 0 < area_available then (area_needed.divQ area_available).mulQ 100
    else if area_needed.posB then Flt.inf else Flt.num 0
  { area_needed := area_needed
    area_available := area_available
    is_feasible := is_feasible
    utilization_percent := utilization.pymin (Flt.num 999.99)
    deficit_or_surplus := Flt.subFrom area_available area_needed }

/-- `CalculatorResult` (`calculator/models.py`). -/
structure CalculatorResult where
  total_reduction_needed : ℚ
  sequestration_target : ℚ
  years : ℤ
  total_area_needed : Flt
  forest_area_needed : Flt
  coastal_area_needed : Flt
  effective_forest_rate : ℚ
  effective_coastal_rate : ℚ
  weighted_average_rate : ℚ
  forest_feasibility : FeasibilityResult
  coastal_feasibility : FeasibilityResult
  overall_feasible : Bool
  annual_sequestration_needed : ℚ
  cumulative_sequestration : ℚ
deriving DecidableEq, Repr

/-- `calculate_sequestration` (`formulas.py` lines 189-321). -/
def calculate_sequestration (p : CalculatorInput) : CalculatorResult :=
  let years := years_clamped p
  let total_reduction := cumulative_emissions p
  let ff := p.new_planting_forest_percent / 100
  let cf := 1 - ff
  let w := weighted_rate p
  let annual := annual_sequestration_needed p
  let total_area : Flt := if 0 < w then Flt.num (annual / w) else Flt.inf
  let forest_area := total_area.mulQ ff
  let coastal_area := total_area.mulQ cf
  let forest_feas := calculate_feasibility forest_area p.forest_area_available
  let coastal_feas := calculate_feasibility coastal_area p.coastal_area_available
  { total_reduction_needed := total_reduction
    sequestration_target := sequestration_target_mt p
    years := years
    total_area_needed := total_area
    forest_area_needed := forest_area
    coastal_area_needed := coastal_area
    effective_forest_rate := effective_forest_rate p
    effective_coastal_rate := effective_coastal_rate p
    weighted_average_rate := w
    forest_feasibility := forest_feas
    coastal_feasibility := coastal_feas
    overall_feasible := forest_feas.is_feasible && coastal_feas.is_feasible
    annual_sequestration_needed := annual
    cumulative_sequestration := sequestration_target_tonnes p }

/-- `calculate_maturity_factor` (`formulas.py` lines 160-186), the maturity
curve used by the new-planting chart; `math.exp` is modelled by `Real.exp`
and `SEQUESTRATION_DEGRADATION_RATE = 0.02`. -/
noncomputable def calculate_maturity_factor (years_since_planting : ℤ) : ℝ :=
  if years_since_planting < 5 then 0
  else if years_since_planting < 15 then
    0.8 * (1 / (1 + Real.exp (-0.5 * (((years_since_planting : ℝ) - 5) - 5))))
  else if years_since_planting < 40 then
    0.8 + 0.2 * ((years_since_planting : ℝ) - 15) / 25
  else
    (1 - 0.02) ^ (years_since_planting - 40).toNat

/-- `cohort_maturity_factor` (`formulas.py` lines 801-820), the maturity
curve used by the net-zero roadmap. -/
noncomputable def cohort_maturity_factor (years_since_planting : ℤ) : ℝ :=
  if years_since_planting < 5 then 0
  else if years_since_planting < 15 then
    0.8 * (1 / (1 + Real.exp (-0.5 * (((years_since_planting : ℝ) - 5) - 5))))
  else
    min 1 (0.8 + 0.02 * ((years_since_planting : ℝ) - 15))

/-- `RoadmapData` (`calculator/models.py`), with the per-year series. -/
structure RoadmapData where
  years : List ℤ
  emissions : List ℚ
  existing_sink : List ℚ
  new_sink : List ℚ
  other_mitigation : List ℚ
  net_balance : List ℚ
deriving DecidableEq, Repr

/-- `RiskScenarioData` (`calculator/models.py`). -/
structure RiskScenarioData where
  name : String
  risk_factor : ℚ
  color : String
  total_area_needed : Flt
  forest_area_needed : Flt
  coastal_area_needed : Flt
  years : List ℤ
  area_trajectory : List Flt
  emissions_trajectory : List ℚ
deriving DecidableEq, Repr

/-- `MultiRiskChartData` (`calculator/models.py`). -/
structure MultiRiskChartData where
  scenarios : List RiskScenarioData
  roadmap : RoadmapData
  current_forest : ℚ
  current_coastal : ℚ
deriving DecidableEq, Repr

/-- `calculate_net_zero_roadmap` (`formulas.py` lines 823-936).  The body
begins with `from .constants import DEFAULT_EMISSIONS_2023, ...`, but
`calculator/constants.py` defines no `DEFAULT_EMISSIONS_2023`, so every call
raises `ImportError` before computing anything (and even without the import
the body reads the nonexistent attributes `input_params.forest_percent` and
`input_params.emissions_2030` at lines 863 and 873).  The raised exception is
modelled as `Except.error`. -/
def calculate_net_zero_roadmap (_input_params : CalculatorInput)
    (_result_moderate : CalculatorResult) : Except String RoadmapData :=
  Except.error "ImportError: cannot import name DEFAULT_EMISSIONS_2023 from calculator.constants"

/-- `generate_multi_risk_data` (`formulas.py` lines 731-798).  For every
scenario selected from `RISK_SCENARIOS` (all three of Optimistic, Moderate,
Pessimistic when `selected_scenarios is None`), the loop body first runs
`calculate_sequestration` on a copy with the scenario risk factor (which
succeeds) and then evaluates `base_input.start_year` at line 760 —
`CalculatorInput` (`calculator/models.py`) declares no field `start_year`, so
an `AttributeError` is raised inside the first selected iteration.  If no
scenario is selected, the loop is skipped and the call still fails inside
`calculate_net_zero_roadmap` (line 791).  The raised exception is modelled as
`Except.error`. -/
def generate_multi_risk_data (base_input : CalculatorInput)
    (selected_scenarios : Option (List String)) : Except String MultiRiskChartData :=
  let sel := selected_scenarios.getD ["Optimistic", "Moderate", "Pessimistic"]
  if "Optimistic" ∈ sel ∨ "Moderate" ∈ sel ∨ "Pessimistic" ∈ sel then
    let _ := calculate_sequestration base_input
    Except.error "AttributeError: CalculatorInput object has no attribute start_year"
  else
    match calculate_net_zero_roadmap base_input
        (calculate_sequestration { base_input with risk_factor := 20 }) with
    | Except.error e => Except.error e
    | Except.ok rd =>
      Except.ok { scenarios := [], roadmap := rd,
                  current_forest := base_input.forest_area_available,
                  current_coastal := base_input.coastal_area_available }

/-! ## Auxiliary lemmas -/

/-- The phase-1 entry at the peak year is exactly the peak value (both when
the span is positive and when it collapses to `progress = 1.0`). -/
lemma phase1_value_at_peak (iy py : ℤ) (iv pv : ℚ) :
    phase1_value iy iv py pv py = pv := by
  unfold phase1_value
  by_cases hlt : iy < py
  · rw [if_pos hlt, div_self (Int.cast_ne_zero.mpr (by omega : (py - iy : ℤ) ≠ 0))]
    ring
  · rw [if_neg hlt]; ring

/-- The phase-2 entry at the target year is exactly the target value when the
second span is positive. -/
lemma phase2_value_at_target (py ty : ℤ) (pv tv : ℚ) (h : py < ty) :
    phase2_value py pv ty tv ty = tv := by
  unfold phase2_value
  rw [if_pos h, div_self (Int.cast_ne_zero.mpr (by omega : (ty - py : ℤ) ≠ 0))]
  ring

/-- The phase-1 entry at the initial year is the initial value when the first
span is positive. -/
lemma phase1_value_at_initial (iy py : ℤ) (iv pv : ℚ) (h : iy < py) :
    phase1_value iy iv py pv iy = iv := by
  unfold phase1_value
  rw [if_pos h]
  norm_num

/-- Scaling the base capacity scales the two accumulators of the
existing-forest loop linearly and leaves `remaining_capacity` unchanged. -/
lemma existingStep_scale (b f dr c : ℚ) :
    ∀ n : ℕ, existingStep (c * b) f dr n =
      (c * (existingStep b f dr n).1, c * (existingStep b f dr n).2.1,
        (existingStep b f dr n).2.2)
  | 0 => by simp [existingStep]
  | n + 1 => by
    simp only [existingStep, existingStep_scale b f dr c n]
    refine Prod.ext ?_ (Prod.ext ?_ rfl) <;> dsimp <;> ring

/-- The risk update leaves every other field unchanged, so the effective
forest rate factors as the zero-risk rate times the risk discount. -/
lemma effective_forest_rate_factor (p : CalculatorInput) :
    effective_forest_rate p =
      (1 - p.risk_factor / 100) *
        effective_forest_rate { p with risk_factor := 0 } := by
  unfold effective_forest_rate
  cases p.include_below_ground <;> simp <;> ring

/-- Companion of `effective_forest_rate_factor` for the coastal rate. -/
lemma effective_coastal_rate_factor (p : CalculatorInput) :
    effective_coastal_rate p =
      (1 - p.risk_factor / 100) *
        effective_coastal_rate { p with risk_factor := 0 } := by
  unfold effective_coastal_rate
  cases p.include_below_ground <;> simp <;> ring

/-- The combined existing-sink base factors through the risk discount. -/
lemma existing_base_factor (p : CalculatorInput) :
    existing_base p =
      (1 - p.risk_factor / 100) * existing_base { p with risk_factor := 0 } := by
  unfold existing_base
  rw [effective_forest_rate_factor p, effective_coastal_rate_factor p]
  ring

/-! ## Claim theorems -/

/-- C10: for every CalculatorInput, the CalculatorResult returned by
calculate_sequestration has overall_feasible true iff both
forest_feasibility.is_feasible and coastal_feasibility.is_feasible are
true. -/
theorem overall_feasible_iff_both (p : CalculatorInput) :
    (calculate_sequestration p).overall_feasible =
      ((calculate_sequestration p).forest_feasibility.is_feasible &&
        (calculate_sequestration p).coastal_feasibility.is_feasible) := rfl

/-- C1: calculate_sequestration derives its outputs by the chain
`adjusted_target = max(0, sequestration_target_tonnes -
existing_absorption_credit)`, `total_needed = adjusted_target +
degradation_loss`, `annual_needed = total_needed / years`,
`total_area_needed = annual_needed / weighted_new_planting_rate`, with
`total_area_needed = +∞` (a value, not an exception) when the weighted rate
is not positive.  Proved for every CalculatorInput, hence in particular for
every valid one. -/
theorem calculate_sequestration_chain (p : CalculatorInput) :
    (calculate_sequestration p).annual_sequestration_needed =
      (max 0 (sequestration_target_tonnes p - total_existing_absorption p) +
        total_degradation_loss p) / (years_clamped p : ℚ) ∧
    (calculate_sequestration p).total_area_needed =
      (if 0 < weighted_rate p then
        Flt.num ((calculate_sequestration p).annual_sequestration_needed /
          weighted_rate p)
       else Flt.inf) :=
  ⟨rfl, rfl⟩

/-- C3: the FeasibilityResult produced by `_calculate_feasibility` for
nonnegative needed/available areas satisfies
`is_feasible = (needed ≤ available)`,
`deficit_or_surplus = available - needed`, and the stored
`utilization_percent` is `needed/available × 100` capped at 999.99, where
the uncapped value is the `+∞` sentinel (capping to 999.99) if available is
0 and needed is positive, else 0 when available is 0. -/
theorem calculate_feasibility_spec (n av : ℚ) (_hn : 0 ≤ n) (hav : 0 ≤ av) :
    (calculate_feasibility (Flt.num n) av).is_feasible = decide (n ≤ av) ∧
    (calculate_feasibility (Flt.num n) av).deficit_or_surplus =
      Flt.num (av - n) ∧
    (calculate_feasibility (Flt.num n) av).utilization_percent =
      (if 0 < av then Flt.num (min (n / av * 100) 999.99)
       else if 0 < n then Flt.num 999.99 else Flt.num 0) := by
  refine ⟨rfl, rfl, ?_⟩
  by_cases h : 0 < av
  · simp only [calculate_feasibility, if_pos h, Flt.divQ, Flt.mulQ, Flt.pymin,
      Flt.lt, decide_eq_true_eq]
    split_ifs with h2
    · rw [min_eq_right (le_of_lt h2)]
    · rw [min_eq_left (not_lt.mp h2)]
  · have hav0 : av = 0 := le_antisymm (not_lt.mp h) hav
    subst hav0
    simp only [calculate_feasibility, if_neg h, Flt.posB]
    by_cases h2 : 0 < n
    · simp only [if_pos h2, decide_eq_true_eq, Flt.pymin, Flt.lt, if_true]
    · simp only [if_neg h2, decide_eq_true_eq, Flt.pymin, Flt.lt]
      norm_num

/-- Witness for C3 at needed 5, available 10. -/
theorem calculate_feasibility_spec_witness :
    (0 : ℚ) ≤ 5 ∧ (0 : ℚ) ≤ 10 ∧
    ((calculate_feasibility (Flt.num 5) 10).is_feasible =
        decide ((5 : ℚ) ≤ 10) ∧
      (calculate_feasibility (Flt.num 5) 10).deficit_or_surplus =
        Flt.num (10 - 5) ∧
      (calculate_feasibility (Flt.num 5) 10).utilization_percent =
        (if (0 : ℚ) < 10 then Flt.num (min ((5 : ℚ) / 10 * 100) 999.99)
         else if (0 : ℚ) < 5 then Flt.num 999.99 else Flt.num 0)) :=
  ⟨by norm_num, by norm_num,
    calculate_feasibility_spec 5 10 (by norm_num) (by norm_num)⟩

/-- C6 (code bug): `generate_multi_risk_data` never returns a
MultiRiskChartData — for every base input and every selection it raises
(`AttributeError` on the nonexistent `base_input.start_year` when at least
one of the three scenarios is selected, otherwise `ImportError` inside
`calculate_net_zero_roadmap`). -/
theorem generate_multi_risk_data_raises (base : CalculatorInput)
    (sel : Option (List String)) :
    ∃ e, generate_multi_risk_data base sel = Except.error e := by
  unfold generate_multi_risk_data
  split
  · dsimp only
    split
    · exact ⟨_, rfl⟩
    · exact ⟨_, rfl⟩
  · next rd h => exact absurd h (by simp [calculate_net_zero_roadmap])

/-- C2 counterexample: the claim admits `initial_year = peak_year`
(`initial_year ≤ peak_year < target_year`), but then the first loop runs the
`progress = 1.0` fallback, so the dict maps the initial year to the peak
value, not the initial value: with anchors `(2030, 1), (2030, 2), (2031, 0)`
the value at 2030 is 2, not the initial value 1. -/
theorem interpolate_initial_anchor_cex :
    (2030 : ℤ) ≤ 2030 ∧ (2030 : ℤ) < 2031 ∧
    interpolate_emissions 2030 1 2030 2 2031 0 2030 = some 2 ∧
    interpolate_emissions 2030 1 2030 2 2031 0 2030 ≠ some 1 := by
  refine ⟨by decide, by decide, ?_, ?_⟩ <;>
    norm_num [interpolate_emissions, phase1_value]

/-- C2 (amended): for anchors with `initial_year ≤ peak_year < target_year`,
interpolate_emissions is defined on every integer year of
`[initial_year, target_year]` and is exact at the peak and target anchors;
it is exact at the initial anchor whenever `initial_year < peak_year`
(when `initial_year = peak_year` the shared year carries the peak value). -/
theorem interpolate_anchor_exact (iy py ty : ℤ) (iv pv tv : ℚ)
    (h1 : iy ≤ py) (h2 : py < ty) :
    (∀ y : ℤ, iy ≤ y → y ≤ ty →
      (interpolate_emissions iy iv py pv ty tv y).isSome) ∧
    interpolate_emissions iy iv py pv ty tv py = some pv ∧
    interpolate_emissions iy iv py pv ty tv ty = some tv ∧
    (iy < py → interpolate_emissions iy iv py pv ty tv iy = some iv) := by
  refine ⟨?_, ?_, ?_, ?_⟩
  · intro y hy1 hy2
    unfold interpolate_emissions
    by_cases hy : y ≤ py
    · rw [if_pos ⟨hy1, hy⟩]; rfl
    · rw [if_neg (fun hc => hy hc.2), if_pos ⟨by omega, hy2⟩]; rfl
  · unfold interpolate_emissions
    rw [if_pos ⟨h1, le_refl py⟩]
    exact congrArg some (phase1_value_at_peak iy py iv pv)
  · unfold interpolate_emissions
    rw [if_neg (fun hc => absurd hc.2 (not_le.mpr h2)), if_pos ⟨by omega, le_refl ty⟩]
    exact congrArg some (phase2_value_at_target py ty pv tv h2)
  · intro hlt
    unfold interpolate_emissions
    rw [if_pos ⟨le_refl iy, h1⟩]
    exact congrArg some (phase1_value_at_initial iy py iv pv hlt)

/-- Witness for the amended C2 at the default anchors
`(2023, 1200), (2030, 1244), (2050, 540)`. -/
theorem interpolate_anchor_exact_witness :
    (2023 : ℤ) ≤ 2030 ∧ (2030 : ℤ) < 2050 ∧
    ((∀ y : ℤ, 2023 ≤ y → y ≤ 2050 →
        (interpolate_emissions 2023 1200 2030 1244 2050 540 y).isSome) ∧
      interpolate_emissions 2023 1200 2030 1244 2050 540 2030 = some 1244 ∧
      interpolate_emissions 2023 1200 2030 1244 2050 540 2050 = some 540 ∧
      ((2023 : ℤ) < 2030 →
        interpolate_emissions 2023 1200 2030 1244 2050 540 2023 = some 1200)) :=
  ⟨by decide, by decide,
    interpolate_anchor_exact 2023 2030 2050 1200 1244 540 (by decide) (by decide)⟩

/-- C8 counterexample: with `peak_year = target_year` the second loop
`range(peak_year+1, target_year+1)` is empty, so nothing collapses to the
target value: with anchors `(2023, 0), (2030, 10), (2030, 5)` the returned
value at the target year 2030 is the phase-1 value 10, not the target value
5 (the claim asserts it equals target_value). -/
theorem interpolate_zero_span_cex :
    interpolate_emissions 2023 0 2030 10 2030 5 2030 = some 10 ∧
    interpolate_emissions 2023 0 2030 10 2030 5 2030 ≠ some 5 := by
  constructor <;> norm_num [interpolate_emissions, phase1_value]

/-- C8 (amended): when the first segment's span is zero
(`initial_year = peak_year`) its progress fraction is 1.0 and the shared
year collapses to the segment's end value `peak_value`; when the second
segment's span is zero (`peak_year = target_year`) its loop body never runs,
and the returned value at the target year is the phase-1 value `peak_value`
(not `target_value`).  No division by zero occurs in either case: every
division in the function is guarded by a positive-span test. -/
theorem interpolate_zero_span (iy py ty : ℤ) (iv pv tv : ℚ) :
    (iy = py → interpolate_emissions iy iv py pv ty tv py = some pv) ∧
    (py = ty → iy ≤ py → interpolate_emissions iy iv py pv ty tv ty = some pv) := by
  constructor
  · intro h
    unfold interpolate_emissions
    rw [if_pos ⟨le_of_eq h, le_refl py⟩]
    exact congrArg some (phase1_value_at_peak iy py iv pv)
  · intro h hle
    subst h
    unfold interpolate_emissions
    rw [if_pos ⟨hle, le_refl py⟩]
    exact congrArg some (phase1_value_at_peak iy py iv pv)

/-- Witness for the amended C8: a collapsed first segment at
`initial_year = peak_year = 2030` yields the peak value 9, and a collapsed
second segment at `peak_year = target_year = 2030` yields the peak value
10. -/
theorem interpolate_zero_span_witness :
    interpolate_emissions 2030 7 2030 9 2040 3 2030 = some 9 ∧
    interpolate_emissions 2023 0 2030 10 2030 5 2030 = some 10 :=
  ⟨(interpolate_zero_span 2030 2030 2040 7 9 3).1 rfl,
    (interpolate_zero_span 2023 2030 2030 0 10 5).2 rfl (by decide)⟩

/-- A small valid input used to exhibit the risk dependence of the
existing-area terms: one year (2030 to 2031), 100 ha of forest at rate 2
with mixed status and no degradation. -/
def cx5 : CalculatorInput :=
  { emissions_initial := 0, emissions_peak := 0, target_2050 := 0,
    sequestration_percent := 0, initial_year := 2030, peak_year := 2030,
    target_year := 2031, new_planting_start_year := 2030,
    forest_area_available := 100, coastal_area_available := 0,
    existing_forest_status := "mixed", new_planting_forest_percent := 80,
    forest_rate := 2, coastal_rate := 1, include_below_ground := false,
    root_to_shoot_ratio := 0.37, risk_factor := 0, degradation_rate := 0 }

/-- C5 counterexample: two valid inputs that differ only in risk_factor
(0 versus 40) produce different existing-ecosystem absorption credits
(100 versus 60 tonnes), because `calculate_sequestration` builds
`forest_existing_base`/`coastal_existing_base` from the risk-discounted
effective rates (`formulas.py` lines 231-245). -/
theorem risk_existing_cex :
    Valid cx5 ∧ Valid { cx5 with risk_factor := 40 } ∧
    total_existing_absorption cx5 = 100 ∧
    total_existing_absorption { cx5 with risk_factor := 40 } = 60 := by
  refine ⟨?_, ?_, ?_, ?_⟩ <;>
    norm_num [Valid, cx5, total_existing_absorption, existingStep,
      existing_base, effective_forest_rate, effective_coastal_rate,
      existing_status_factor, years_clamped] <;> decide

/-- C5 (amended): the risk discount is applied to the existing-area rates
too, so changing only risk_factor rescales both the existing-ecosystem
absorption credit and the degradation loss by the factor
`1 - risk_factor/100` (they agree with the zero-risk values only when the
existing contribution vanishes). -/
theorem risk_scales_existing_terms (p : CalculatorInput) :
    total_existing_absorption p =
      (1 - p.risk_factor / 100) *
        total_existing_absorption { p with risk_factor := 0 } ∧
    total_degradation_loss p =
      (1 - p.risk_factor / 100) *
        total_degradation_loss { p with risk_factor := 0 } := by
  unfold total_existing_absorption total_degradation_loss
  rw [existing_base_factor p, existingStep_scale]
  exact ⟨rfl, rfl⟩

/-- Under the pydantic range constraints the effective forest rate is
positive (rate at least 1, below-ground multiplier at least 1, risk
discount at least one half). -/
lemma effective_forest_rate_pos (p : CalculatorInput) (h : Valid p) :
    0 < effective_forest_rate p := by
  obtain ⟨-, -, -, -, -, -, -, -, -, -, -, -, -, -, -, -, -, -, -, -,
    h21, -, -, -, h25, -, -, h28, -, -⟩ := h
  unfold effective_forest_rate
  have hd : 0 < 1 - p.risk_factor / 100 := by linarith
  cases p.include_below_ground
  · simpa using mul_pos (by linarith : (0:ℚ) < p.forest_rate) hd
  · simpa using
      mul_pos (mul_pos (by linarith : (0:ℚ) < p.forest_rate)
        (by linarith : (0:ℚ) < 1 + p.root_to_shoot_ratio)) hd

/-- Companion of `effective_forest_rate_pos` for the coastal rate. -/
lemma effective_coastal_rate_pos (p : CalculatorInput) (h : Valid p) :
    0 < effective_coastal_rate p := by
  obtain ⟨-, -, -, -, -, -, -, -, -, -, -, -, -, -, -, -, -, -, -, -,
    -, -, h23, -, h25, -, -, h28, -, -⟩ := h
  unfold effective_coastal_rate
  have hd : 0 < 1 - p.risk_factor / 100 := by linarith
  cases p.include_below_ground
  · simpa using mul_pos (by linarith : (0:ℚ) < p.coastal_rate) hd
  · simpa using
      mul_pos (mul_pos (by linarith : (0:ℚ) < p.coastal_rate)
        (by linarith : (0:ℚ) < 1 + p.root_to_shoot_ratio)) hd

/-- For every valid input the weighted new-planting rate is positive, so the
`float("inf")` branch of Step 7 is unreachable on validated inputs. -/
lemma weighted_rate_pos (p : CalculatorInput) (h : Valid p) :
    0 < weighted_rate p := by
  have hef := effective_forest_rate_pos p h
  have hec := effective_coastal_rate_pos p h
  obtain ⟨-, -, -, -, -, -, -, -, -, -, -, -, -, -, -, -, -, -, h19, h20,
    -, -, -, -, -, -, -, -, -, -⟩ := h
  by_cases ha0 : p.new_planting_forest_percent = 0
  · have hw : weighted_rate p = effective_coastal_rate p := by
      unfold weighted_rate; rw [ha0]; ring
    rw [hw]; exact hec
  · have ha : 0 < p.new_planting_forest_percent :=
      lt_of_le_of_ne h19 (Ne.symm ha0)
    have h1 : 0 < p.new_planting_forest_percent / 100 * effective_forest_rate p := by
      positivity
    have h2 : 0 ≤ (1 - p.new_planting_forest_percent / 100) * effective_coastal_rate p :=
      mul_nonneg (by linarith) hec.le
    unfold weighted_rate
    linarith

/-- For a finite needed area the stored utilization and deficit fields of
`_calculate_feasibility` are always finite (the `inf` sentinel is clipped to
999.99 by the cap). -/
lemma calculate_feasibility_finite (x av : ℚ) :
    ((calculate_feasibility (Flt.num x) av).utilization_percent).isFinite = true ∧
    ((calculate_feasibility (Flt.num x) av).deficit_or_surplus).isFinite = true := by
  refine ⟨?_, rfl⟩
  unfold calculate_feasibility
  dsimp only
  split_ifs with h1 h2
  · simp only [Flt.divQ, Flt.mulQ, Flt.pymin, Flt.lt]
    split_ifs <;> rfl
  · rfl
  · simp only [Flt.pymin, Flt.lt]
    split_ifs <;> rfl

/-- C9: for every valid CalculatorInput with `target_year = initial_year`,
`calculate_sequestration` returns normally with `years` clamped to 1 and all
possibly-infinite fields finite.  (The exception clause of the claim — a
weighted rate of exactly 0 forcing `total_area_needed = +∞` — cannot fire on
a valid input, since `weighted_rate_pos` shows the weighted rate is then
positive; the rational-valued fields are finite by construction.) -/
theorem degenerate_year_span (p : CalculatorInput) (hv : Valid p)
    (hy : p.target_year = p.initial_year) :
    (calculate_sequestration p).years = 1 ∧
    (calculate_sequestration p).total_area_needed.isFinite = true ∧
    (calculate_sequestration p).forest_area_needed.isFinite = true ∧
    (calculate_sequestration p).coastal_area_needed.isFinite = true ∧
    ((calculate_sequestration p).forest_feasibility.utilization_percent).isFinite = true ∧
    ((calculate_sequestration p).forest_feasibility.deficit_or_surplus).isFinite = true ∧
    ((calculate_sequestration p).coastal_feasibility.utilization_percent).isFinite = true ∧
    ((calculate_sequestration p).coastal_feasibility.deficit_or_surplus).isFinite = true := by
  have hw := weighted_rate_pos p hv
  have hff : (calculate_sequestration p).forest_feasibility =
      calculate_feasibility
        (Flt.num (annual_sequestration_needed p / weighted_rate p *
          (p.new_planting_forest_percent / 100))) p.forest_area_available := by
    simp only [calculate_sequestration]
    rw [if_pos hw]
    rfl
  have hcf : (calculate_sequestration p).coastal_feasibility =
      calculate_feasibility
        (Flt.num (annual_sequestration_needed p / weighted_rate p *
          (1 - p.new_planting_forest_percent / 100))) p.coastal_area_available := by
    simp only [calculate_sequestration]
    rw [if_pos hw]
    rfl
  refine ⟨?_, ?_, ?_, ?_, ?_, ?_, ?_, ?_⟩
  · simp only [calculate_sequestration, years_clamped, hy]
    simp
  · simp only [calculate_sequestration]
    rw [if_pos hw]
    rfl
  · simp only [calculate_sequestration]
    rw [if_pos hw]
    rfl
  · simp only [calculate_sequestration]
    rw [if_pos hw]
    rfl
  · rw [hff]; exact (calculate_feasibility_finite _ _).1
  · rw [hff]; exact (calculate_feasibility_finite _ _).2
  · rw [hcf]; exact (calculate_feasibility_finite _ _).1
  · rw [hcf]; exact (calculate_feasibility_finite _ _).2

/-- A valid input whose target year equals its initial year (all other
fields keep the pydantic defaults). -/
def cx9 : CalculatorInput :=
  { initial_year := 2030, peak_year := 2030, target_year := 2030 }

/-- Witness for C9 at the degenerate input `cx9`. -/
theorem degenerate_year_span_witness :
    Valid cx9 ∧ cx9.target_year = cx9.initial_year ∧
    (calculate_sequestration cx9).years = 1 :=
  ⟨by norm_num [Valid, cx9], rfl,
    (degenerate_year_span cx9 (by norm_num [Valid, cx9]) rfl).1⟩

/-! ## Maturity-curve lemmas -/

lemma one_add_exp_pos (x : ℝ) : 0 < 1 + Real.exp x := by positivity

/-- The logistic sigmoid is monotone. -/
lemma sig_mono {x y : ℝ} (h : x ≤ y) :
    1 / (1 + Real.exp (-x)) ≤ 1 / (1 + Real.exp (-y)) := by
  apply one_div_le_one_div_of_le (one_add_exp_pos _)
  have := Real.exp_le_exp.mpr (neg_le_neg h)
  linarith

lemma sig_le_one (x : ℝ) : 1 / (1 + Real.exp x) ≤ 1 := by
  rw [div_le_one (one_add_exp_pos x)]
  have := Real.exp_pos x
  linarith

/-- The sigmoid branch of `calculate_maturity_factor`, rewritten with the
exponent in sigmoid normal form. -/
lemma maturity_branch2 (n : ℤ) (h1 : 5 ≤ n) (h2 : n < 15) :
    calculate_maturity_factor n =
      0.8 * (1 / (1 + Real.exp (-(0.5 * ((n : ℝ) - 10))))) := by
  unfold calculate_maturity_factor
  rw [if_neg (by omega), if_pos h2]
  have harg : (-0.5 * (((n : ℝ) - 5) - 5)) = -(0.5 * ((n : ℝ) - 10)) := by ring
  rw [harg]

/-- The linear-ramp branch of `calculate_maturity_factor`. -/
lemma maturity_branch3 (n : ℤ) (h1 : 15 ≤ n) (h2 : n < 40) :
    calculate_maturity_factor n = 0.8 + 0.2 * ((n : ℝ) - 15) / 25 := by
  unfold calculate_maturity_factor
  rw [if_neg (by omega), if_neg (by omega), if_pos h2]

/-- One-step monotonicity of the maturity factor on `[0, 40]`. -/
lemma maturity_step (k : ℤ) (h0 : 0 ≤ k) (h40 : k + 1 ≤ 40) :
    calculate_maturity_factor k ≤ calculate_maturity_factor (k + 1) := by
  by_cases hA : k + 1 < 5
  · unfold calculate_maturity_factor
    rw [if_pos (by omega), if_pos hA]
  · by_cases hB : k < 5
    · have hk : k = 4 := by omega
      subst hk
      have h1 : calculate_maturity_factor 4 = 0 := by
        unfold calculate_maturity_factor
        rw [if_pos (by norm_num)]
      have h2 := maturity_branch2 5 (by norm_num) (by norm_num)
      rw [h1, (by norm_num : (4 : ℤ) + 1 = 5), h2]
      positivity
    · by_cases hC : k + 1 < 15
      · rw [maturity_branch2 k (by omega) (by omega),
          maturity_branch2 (k + 1) (by omega) hC]
        have hmono : 1 / (1 + Real.exp (-(0.5 * ((k : ℝ) - 10)))) ≤
            1 / (1 + Real.exp (-(0.5 * (((k + 1 : ℤ) : ℝ) - 10)))) := by
          apply sig_mono
          push_cast
          linarith
        nlinarith [hmono]
      · by_cases hD : k < 15
        · have hk : k = 14 := by omega
          subst hk
          rw [maturity_branch2 14 (by norm_num) (by norm_num),
            (by norm_num : (14 : ℤ) + 1 = 15),
            maturity_branch3 15 (by norm_num) (by norm_num)]
          have hs := sig_le_one (-(0.5 * (((14 : ℤ) : ℝ) - 10)))
          push_cast
          push_cast at hs
          nlinarith [hs]
        · by_cases hE : k + 1 < 40
          · rw [maturity_branch3 k (by omega) (by omega),
              maturity_branch3 (k + 1) (by omega) hE]
            push_cast
            linarith
          · have hk : k = 39 := by omega
            subst hk
            have h40v : calculate_maturity_factor (39 + 1) = 1 := by
              rw [(by norm_num : (39 : ℤ) + 1 = 40)]
              unfold calculate_maturity_factor
              rw [if_neg (by norm_num), if_neg (by norm_num), if_neg (by norm_num)]
              norm_num
            rw [maturity_branch3 39 (by norm_num) (by norm_num), h40v]
            push_cast
            norm_num

/-- Monotonicity of the maturity factor over the integers of `[0, 40]`. -/
lemma maturity_mono (m : ℤ) (h0 : 0 ≤ m) :
    ∀ n : ℤ, m ≤ n → n ≤ 40 →
      calculate_maturity_factor m ≤ calculate_maturity_factor n := by
  have H : ∀ n : ℤ, m ≤ n →
      (n ≤ 40 → calculate_maturity_factor m ≤ calculate_maturity_factor n) :=
    Int.le_induction (fun _ => le_refl _)
      (fun n hn ih h41 => le_trans (ih (by omega)) (maturity_step n (by omega) h41))
  exact fun n hmn h40 => H n hmn h40

/-- C4 counterexample: the two maturity functions disagree at 16 years
since planting — the chart curve gives `0.8 + 0.2·1/25 = 0.808` while the
roadmap curve gives `min(1, 0.8 + 0.02·1) = 0.82`. -/
theorem maturity_models_cex :
    calculate_maturity_factor 16 ≠ cohort_maturity_factor 16 := by
  unfold calculate_maturity_factor cohort_maturity_factor
  norm_num

/-- C4 (amended): the chart maturity curve and the roadmap maturity curve
agree on the establishment and sigmoid phases (`n < 15`); from 15 on they
diverge — `calculate_maturity_factor` follows the linear ramp
`0.8 + 0.2·(n-15)/25` on `[15, 40)` while `cohort_maturity_factor` follows
`min(1, 0.8 + 0.02·(n-15))`, so there is no single shared cohort maturity
model. -/
theorem maturity_models_relation (n : ℤ) :
    (n < 15 → calculate_maturity_factor n = cohort_maturity_factor n) ∧
    (15 ≤ n → n < 40 →
      calculate_maturity_factor n = 0.8 + 0.2 * ((n : ℝ) - 15) / 25) ∧
    (15 ≤ n → cohort_maturity_factor n = min 1 (0.8 + 0.02 * ((n : ℝ) - 15))) := by
  refine ⟨?_, ?_, ?_⟩
  · intro h
    unfold calculate_maturity_factor cohort_maturity_factor
    by_cases h5 : n < 5
    · rw [if_pos h5, if_pos h5]
    · rw [if_neg h5, if_neg h5, if_pos h, if_pos h]
  · intro h1 h2
    exact maturity_branch3 n h1 h2
  · intro h1
    unfold cohort_maturity_factor
    rw [if_neg (by omega), if_neg (by omega)]

/-- Witness for the amended C4 at 7 (agreement) and 20 (the two ramps). -/
theorem maturity_models_relation_witness :
    calculate_maturity_factor 7 = cohort_maturity_factor 7 ∧
    calculate_maturity_factor 20 = 0.8 + 0.2 * (((20 : ℤ) : ℝ) - 15) / 25 ∧
    cohort_maturity_factor 20 = min 1 (0.8 + 0.02 * (((20 : ℤ) : ℝ) - 15)) :=
  ⟨(maturity_models_relation 7).1 (by decide),
    (maturity_models_relation 20).2.1 (by decide) (by decide),
    (maturity_models_relation 20).2.2 (by decide)⟩

/-- C7: the chart maturity factor is 0 for every integer below 5, is exactly
0.8 at 15, and is non-decreasing over the integers of `[0, 40]`. -/
theorem maturity_factor_props :
    (∀ n : ℤ, n < 5 → calculate_maturity_factor n = 0) ∧
    calculate_maturity_factor 15 = 0.8 ∧
    (∀ m n : ℤ, 0 ≤ m → m ≤ n → n ≤ 40 →
      calculate_maturity_factor m ≤ calculate_maturity_factor n) := by
  refine ⟨?_, ?_, ?_⟩
  · intro n h
    unfold calculate_maturity_factor
    rw [if_pos h]
  · rw [maturity_branch3 15 (by norm_num) (by norm_num)]
    norm_num
  · exact fun m n h0 hmn h40 => maturity_mono m h0 n hmn h40

/-- Witness for C7 at 3, 15 and the pair (10, 20). -/
theorem maturity_factor_props_witness :
    calculate_maturity_factor 3 = 0 ∧
    calculate_maturity_factor 15 = 0.8 ∧
    calculate_maturity_factor 10 ≤ calculate_maturity_factor 20 :=
  ⟨maturity_factor_props.1 3 (by decide), maturity_factor_props.2.1,
    maturity_factor_props.2.2 10 20 (by decide) (by decide) (by decide)⟩

end SeqCalc
